import Mathlib

/-!
Shallow embedding of the job pipeline engine of the local transcription server
(src/server.js): the AudioProcessor class (conversion, transcription, summary,
HubSpot-attach stages and their orchestration in process/cleanup), the in-memory
job registry (processingJobs), the submission handler metadata construction, and
the post-hoc HubSpot attach endpoint.

External effects (spawned processes, filesystem reads/writes/unlinks, wall-clock
timestamps) are supplied by an oracle record `World`; each run consumes the
oracle and produces the final job record together with a `Trace` of the external
actions it performed (adapter invocations, durable files written, unlink
attempts).
-/

namespace LocalTranscript

/-- Outcome of spawning an external process: either the close event fires with
an exit code, or the error event fires (launch failure). -/
inductive SpawnOutcome where
  | closed (code : Int)
  | launchError (msg : String)
deriving DecidableEq

/-- Per-stage status, as stored in `this.steps[...]` (the strings pending,
processing, completed, error in the source). -/
inductive StepStatus where
  | pending
  | processing
  | completed
  | error
deriving DecidableEq

/-- Overall job status (`this.status`): started, processing, completed, error. -/
inductive JobStatus where
  | started
  | processing
  | completed
  | error
deriving DecidableEq

/-- Metadata attached to a job. JS fields that may be undefined or empty are
Option; `attachToHubspot` models the truthiness of `metadata.attachToHubspot`
as read by `process()`. -/
structure Metadata where
  clientName : Option String
  caseNumber : Option String
  meetingNotes : Option String
  attachToHubspot : Bool
deriving DecidableEq

/-- JS `String.prototype.trim`, modelled at the character-list level so it is
kernel-reducible: drop whitespace from both ends. -/
def jsTrim (s : String) : String :=
  String.mk (((s.data.dropWhile Char.isWhitespace).reverse.dropWhile
    Char.isWhitespace).reverse)

/-- The sanitizer applied to client/case identifiers in the source:
`.replace(/[^a-zA-Z0-9]/g, '-')`. -/
def sanitizeId (s : String) : String :=
  String.mk (s.data.map (fun c => if c.isAlphanum then c else '-'))

/-- The `clientInfo` / `caseInfo` fragments of artifact filenames: an
underscore plus the sanitized identifier when supplied and non-empty (JS
truthiness: the empty string is falsy), else the empty string. -/
def infoTag (field : Option String) : String :=
  match field with
  | some s => if s = "" then "" else "_" ++ sanitizeId s
  | none => ""

/-- `transcript_${timestamp}${clientInfo}${caseInfo}.txt` -/
def transcriptFileName (timestamp : String) (md : Metadata) : String :=
  "transcript_" ++ timestamp ++ infoTag md.clientName ++ infoTag md.caseNumber ++ ".txt"

/-- `path.join('transcripts', transcriptFileName)` -/
def transcriptSavePath (timestamp : String) (md : Metadata) : String :=
  "transcripts/" ++ transcriptFileName timestamp md

/-- `summary_${timestamp}${clientInfo}${caseInfo}.txt` -/
def summaryFileName (timestamp : String) (md : Metadata) : String :=
  "summary_" ++ timestamp ++ infoTag md.clientName ++ infoTag md.caseNumber ++ ".txt"

/-- `path.join('summaries', summaryFileName)` -/
def summarySavePath (timestamp : String) (md : Metadata) : String :=
  "summaries/" ++ summaryFileName timestamp md

/-- `path.join('temp', processId + '.wav')`, the transient converted-audio
path, derived from the job id. -/
def tempWavPath (processId : String) : String :=
  "temp/" ++ processId ++ ".wav"

/-- Oracle for everything outside the process: spawn outcomes and captured
stdout of the three external tools, filesystem read/write/unlink outcomes, and
the formatted timestamps taken when each artifact is saved. -/
structure World where
  ffmpeg : SpawnOutcome
  whisper : SpawnOutcome
  txtRead : Option String
  transcriptTimestamp : String
  transcriptWriteOk : Bool
  ollama : SpawnOutcome
  ollamaStdout : String
  summaryTimestamp : String
  summaryWriteOk : Bool
  unlinkOk : Bool
deriving DecidableEq

/-- `this.steps`, one slot per pipeline stage (the source key for the attach
stage is `hubspot`). -/
structure Steps where
  conversion : StepStatus
  transcription : StepStatus
  summary : StepStatus
  hubspot : StepStatus
deriving DecidableEq

/-- `this.results`: accumulated outputs. -/
structure Results where
  wavFile : Option String
  transcription : Option String
  summary : Option String
deriving DecidableEq

/-- One job record (the AudioProcessor instance state). -/
structure Job where
  processId : String
  audioFile : String
  metadata : Metadata
  status : JobStatus
  steps : Steps
  results : Results
deriving DecidableEq

/-- The AudioProcessor constructor: status started, all stages pending, empty
results. -/
def mkJob (processId audioFile : String) (md : Metadata) : Job :=
  { processId := processId, audioFile := audioFile, metadata := md,
    status := .started,
    steps := { conversion := .pending, transcription := .pending,
               summary := .pending, hubspot := .pending },
    results := { wavFile := none, transcription := none, summary := none } }

/-- Trace of external actions a run performed: how many times each external
adapter was invoked, which durable files were successfully written, and which
paths had deletion attempted (paired with whether the unlink succeeded). -/
structure Trace where
  ffmpegCalls : Nat
  whisperCalls : Nat
  ollamaCalls : Nat
  hubspotCalls : Nat
  written : List String
  unlinked : List (String × Bool)
deriving DecidableEq

def Trace.empty : Trace :=
  { ffmpegCalls := 0, whisperCalls := 0, ollamaCalls := 0, hubspotCalls := 0,
    written := [], unlinked := [] }

/-- `convertAudioToWav`: mark conversion processing, spawn ffmpeg writing to
the job-id-derived temp path; on exit code 0 mark completed, record
results.wavFile and resolve the path; on non-zero exit or launch error mark
the stage error and reject (third component none). -/
def convertAudioToWav (w : World) (j : Job) (t : Trace) :
    Job × Trace × Option String :=
  let j1 := { j with steps.conversion := .processing }
  let t1 := { t with ffmpegCalls := t.ffmpegCalls + 1 }
  let outputPath := tempWavPath j.processId
  match w.ffmpeg with
  | .closed code =>
    if code = 0 then
      ({ j1 with steps.conversion := .completed,
                 results.wavFile := some outputPath }, t1, some outputPath)
    else
      ({ j1 with steps.conversion := .error }, t1, none)
  | .launchError _ =>
    ({ j1 with steps.conversion := .error }, t1, none)

/-- `transcribeAudio`: mark transcription processing, spawn whisper-cli on the
wav path. On exit 0 the adapter reads the generated `wavPath + ".txt"`; if the
read succeeds it marks the stage completed and records the trimmed text, then
writes the durable transcript and unlinks the raw txt file; if the durable
write throws this is caught by the same handler as a read failure, so the
stage is re-marked error and the promise rejects (with the recorded text left
in results). On non-zero exit, launch error, or read failure the stage is
marked error and the promise rejects. -/
def transcribeAudio (w : World) (j : Job) (t : Trace) (wavPath : String) :
    Job × Trace × Option String :=
  let j1 := { j with steps.transcription := .processing }
  let t1 := { t with whisperCalls := t.whisperCalls + 1 }
  match w.whisper with
  | .closed code =>
    if code = 0 then
      match w.txtRead with
      | some content =>
        let transcription := jsTrim content
        let j2 := { j1 with steps.transcription := .completed,
                            results.transcription := some transcription }
        let savePath := transcriptSavePath w.transcriptTimestamp j.metadata
        if w.transcriptWriteOk then
          let txtPath := wavPath ++ ".txt"
          let t2 := { t1 with written := t1.written ++ [savePath],
                              unlinked := t1.unlinked ++ [(txtPath, w.unlinkOk)] }
          (j2, t2, some transcription)
        else
          ({ j2 with steps.transcription := .error }, t1, none)
      | none =>
        ({ j1 with steps.transcription := .error }, t1, none)
    else
      ({ j1 with steps.transcription := .error }, t1, none)
  | .launchError _ =>
    ({ j1 with steps.transcription := .error }, t1, none)

/-- `generateSummary`: mark summary processing, spawn ollama and pipe in the
prompt. On `code === 0 && stdout.trim()` (exit zero and non-empty trimmed
output) mark the stage completed, record the trimmed summary, and attempt to
write the durable summary file, swallowing any write error; then resolve.
Otherwise (non-zero exit, empty output, or launch error) mark the stage error
and reject. -/
def generateSummary (w : World) (j : Job) (t : Trace) :
    Job × Trace × Option String :=
  let j1 := { j with steps.summary := .processing }
  let t1 := { t with ollamaCalls := t.ollamaCalls + 1 }
  match w.ollama with
  | .closed code =>
    if code = 0 ∧ jsTrim w.ollamaStdout ≠ "" then
      let summaryText := jsTrim w.ollamaStdout
      let j2 := { j1 with steps.summary := .completed,
                          results.summary := some summaryText }
      let savePath := summarySavePath w.summaryTimestamp j.metadata
      let t2 := if w.summaryWriteOk
        then { t1 with written := t1.written ++ [savePath] }
        else t1
      (j2, t2, some summaryText)
    else
      ({ j1 with steps.summary := .error }, t1, none)
  | .launchError _ =>
    ({ j1 with steps.summary := .error }, t1, none)

/-- `attachToHubspot`: marks the hubspot stage processing, simulates the API
call, marks it completed and returns success. The placeholder body cannot
fail, so its catch branch is unreachable. -/
def attachToHubspot (j : Job) (t : Trace) : Job × Trace :=
  let j1 := { j with steps.hubspot := .processing }
  let t1 := { t with hubspotCalls := t.hubspotCalls + 1 }
  ({ j1 with steps.hubspot := .completed }, t1)

/-- `cleanup`: when `results.wavFile` is set, attempt to unlink it, swallowing
any unlink failure. Called with no outcome inspection by `process`. -/
def cleanup (w : World) (j : Job) (t : Trace) : Trace :=
  match j.results.wavFile with
  | some p => { t with unlinked := t.unlinked ++ [(p, w.unlinkOk)] }
  | none => t

/-- `process()`: set status processing, then run conversion, transcription and
summary in sequence, stopping at the first rejection, whose catch sets status
to error. If `metadata.attachToHubspot` is truthy, run the attach stage. Then
set status completed and invoke cleanup (cleanup is only reached on the
success path; the catch does not call it). -/
def process (w : World) (j : Job) : Job × Trace :=
  let j0 := { j with status := .processing }
  match convertAudioToWav w j0 Trace.empty with
  | (j1, t1, none) => ({ j1 with status := .error }, t1)
  | (j1, t1, some wavPath) =>
    match transcribeAudio w j1 t1 wavPath with
    | (j2, t2, none) => ({ j2 with status := .error }, t2)
    | (j2, t2, some _transcription) =>
      match generateSummary w j2 t2 with
      | (j3, t3, none) => ({ j3 with status := .error }, t3)
      | (j3, t3, some _summary) =>
        let jt :=
          if j3.metadata.attachToHubspot then attachToHubspot j3 t3 else (j3, t3)
        let j4 := { jt.1 with status := .completed }
        let t4 := cleanup w j4 jt.2
        (j4, t4)

/-- Body fields of a POST /api/process-audio request that the handler reads
(plus an attach-request field a client may send). -/
structure RequestBody where
  clientName : Option String
  caseNumber : Option String
  meetingNotes : Option String
  attachToHubspot : Bool
deriving DecidableEq

/-- The metadata object built by the submission handler. It copies clientName,
caseNumber and meetingNotes from the request body but includes no
attachToHubspot key, so the later `metadata.attachToHubspot` read in
`process()` yields undefined, i.e. falsy. -/
def buildMetadata (body : RequestBody) : Metadata :=
  { clientName := body.clientName, caseNumber := body.caseNumber,
    meetingNotes := body.meetingNotes, attachToHubspot := false }

/-- Job created by the submission handler: a fresh id, the uploaded file path,
and the handler-built metadata. -/
def submitJob (processId filePath : String) (body : RequestBody) : Job :=
  mkJob processId filePath (buildMetadata body)

/-- The in-memory registry `processingJobs`, a Map of process id to job
record. Modelled as an association list where `put` conses and `get` returns
the most recent binding, observably the Map set/get semantics. -/
abbrev Registry := List (String × Job)

def Registry.put (r : Registry) (id : String) (j : Job) : Registry :=
  (id, j) :: r

def Registry.get (r : Registry) (id : String) : Option Job :=
  r.lookup id

/-- The only operations the source ever performs on `processingJobs` are
`set` (in updateStep, process and the submission handler) and `get` (in the
status and hubspot-attach handlers); there is no delete anywhere. -/
inductive RegistryOp where
  | put (id : String) (j : Job)
  | get (id : String)

def applyOp (r : Registry) : RegistryOp → Registry
  | .put id j => Registry.put r id j
  | .get _ => r

def applyOps (r : Registry) : List RegistryOp → Registry
  | [] => r
  | op :: ops => applyOps (applyOp r op) ops

/-- Response of POST /api/hubspot-attach/:processId: 404, 400 (processing not
completed), or success. -/
inductive AttachResponse where
  | notFound
  | notCompleted
  | attached
deriving DecidableEq

/-- The post-hoc attach handler: look the job up; unknown id gives 404 and no
change; a job whose status is not completed gives 400, without invoking the
attach adapter or touching the registry; a completed job has attachToHubspot
re-invoked (hubspot stage processing then completed, each state written back
through updateStep). The third component counts attach-adapter invocations. -/
def hubspotAttachEndpoint (r : Registry) (id : String) :
    Registry × AttachResponse × Nat :=
  match Registry.get r id with
  | none => (r, .notFound, 0)
  | some job =>
    if job.status = .completed then
      let j1 := { job with steps.hubspot := .processing }
      let r1 := Registry.put r id j1
      let j2 := { j1 with steps.hubspot := .completed }
      let r2 := Registry.put r1 id j2
      (r2, .attached, 1)
    else
      (r, .notCompleted, 0)

/-- The conversion adapter resolves: ffmpeg close event with exit code 0. -/
abbrev convResolves (w : World) : Prop := w.ffmpeg = .closed 0

/-- The transcription stage resolves: whisper exits 0, the generated txt file
is readable, and the durable transcript write succeeds (a failing write is
caught by the same handler as a failing read and rejects). -/
abbrev transResolves (w : World) : Prop :=
  w.whisper = .closed 0 ∧ w.txtRead ≠ none ∧ w.transcriptWriteOk = true

/-- The summarization adapter resolves: ollama exits 0 with non-empty trimmed
stdout. -/
abbrev summResolves (w : World) : Prop :=
  w.ollama = .closed 0 ∧ jsTrim w.ollamaStdout ≠ ""

/-- A world where every external step succeeds. -/
def wAllGood : World :=
  { ffmpeg := .closed 0, whisper := .closed 0, txtRead := some "HELLO",
    transcriptTimestamp := "2026-10-12T10-00-00", transcriptWriteOk := true,
    ollama := .closed 0, ollamaStdout := "SUMMARY TEXT",
    summaryTimestamp := "2026-10-12T10-00-05", summaryWriteOk := true,
    unlinkOk := true }

/-- A world where ffmpeg exits non-zero. -/
def wConvFail : World :=
  { wAllGood with ffmpeg := .closed 1 }

/-- A world where whisper exits non-zero (conversion already succeeded). -/
def wWhisperFail : World :=
  { wAllGood with whisper := .closed 1 }

/-- A world where every adapter resolves but the transcript artifact content
is whitespace only and the durable summary write fails. -/
def wEmptyTranscript : World :=
  { wAllGood with txtRead := some "  ", summaryWriteOk := false }

/-- A world where ollama exits zero but its output trims to empty. -/
def wEmptySummary : World :=
  { wAllGood with ollamaStdout := "   " }

/-- A world where everything succeeds except the durable summary write. -/
def wSummarySaveFail : World :=
  { wAllGood with summaryWriteOk := false }

/-- Metadata with client and case identifiers supplied. -/
def mdAcme : Metadata :=
  { clientName := some "Acme Corp", caseNumber := some "CASE 123",
    meetingNotes := none, attachToHubspot := false }

/-- As mdAcme but with the attach flag truthy. -/
def mdAcmeAttach : Metadata :=
  { mdAcme with attachToHubspot := true }

def jobAcme : Job := mkJob "job-1" "uploads/u1_a.m4a" mdAcme

def jobAcme2 : Job := mkJob "job-2" "uploads/u2_b.m4a" mdAcme

/-- A request body that asks for the HubSpot attach step. -/
def bodyAttach : RequestBody :=
  { clientName := some "Acme Corp", caseNumber := some "CASE 123",
    meetingNotes := none, attachToHubspot := true }

/-- A job that has already run to completion (as the post-hoc attach endpoint
expects to find in the registry). -/
def jobDone : Job :=
  { mkJob "job-5" "uploads/c5.m4a" mdAcme with status := JobStatus.completed }

/-- A registry holding the completed job, for exercising the post-hoc attach
endpoint. -/
def regDone : Registry := Registry.put [] "job-5" jobDone

/-- A registry holding one job under id a, for exercising registry op
sequences. -/
def regA : Registry := Registry.put [] "a" (mkJob "a" "uploads/a.m4a" mdAcme)

/-- A sample sequence of registry operations: puts and gets only, as the
source performs. -/
def opsSample : List RegistryOp :=
  [RegistryOp.put "b" (mkJob "b" "uploads/b.m4a" mdAcme), RegistryOp.get "a",
   RegistryOp.put "a" jobDone, RegistryOp.get "zzz"]

/-- The value `results.transcription` holds after a failed transcription
stage: the recorded trimmed text when whisper exited 0, the txt file was read,
and only the durable write failed; otherwise the prior value. -/
def transFailRT (w : World) (j : Job) : Option String :=
  match w.whisper, w.txtRead, w.transcriptWriteOk with
  | .closed 0, some c, false => some (jsTrim c)
  | _, _, _ => j.results.transcription

/-
Characterization lemmas for the stage adapters and the pipeline, one per
control-flow regime of process(): conversion failure, transcription failure,
summary failure, and full success.
-/

theorem convertAudioToWav_ok (w : World) (j : Job) (t : Trace)
    (h : w.ffmpeg = SpawnOutcome.closed 0) :
    convertAudioToWav w j t =
      ({ j with steps.conversion := .completed,
                results.wavFile := some (tempWavPath j.processId) },
       { t with ffmpegCalls := t.ffmpegCalls + 1 },
       some (tempWavPath j.processId)) := by
  simp [convertAudioToWav, h]

theorem transcribeAudio_ok (w : World) (j : Job) (t : Trace) (wavPath : String)
    (content : String) (h2 : w.whisper = SpawnOutcome.closed 0)
    (h3 : w.txtRead = some content) (h4 : w.transcriptWriteOk = true) :
    transcribeAudio w j t wavPath =
      ({ j with steps.transcription := .completed,
                results.transcription := some (jsTrim content) },
       { t with whisperCalls := t.whisperCalls + 1,
                written := t.written ++
                  [transcriptSavePath w.transcriptTimestamp j.metadata],
                unlinked := t.unlinked ++ [(wavPath ++ ".txt", w.unlinkOk)] },
       some (jsTrim content)) := by
  simp [transcribeAudio, h2, h3, h4]

theorem transcribeAudio_fail (w : World) (j : Job) (t : Trace) (wavPath : String)
    (h : ¬ transResolves w) :
    transcribeAudio w j t wavPath =
      ({ j with steps.transcription := .error,
                results.transcription := transFailRT w j },
       { t with whisperCalls := t.whisperCalls + 1 }, none) := by
  rcases hw : w.whisper with code | msg
  · by_cases hcode : code = 0
    · subst hcode
      rcases hr : w.txtRead with _ | content
      · simp [transcribeAudio, transFailRT, hw, hr]
      · have hwr : w.transcriptWriteOk = false := by
          cases hb : w.transcriptWriteOk
          · rfl
          · exact absurd ⟨hw, by simp [hr], hb⟩ h
        simp [transcribeAudio, transFailRT, hw, hr, hwr]
    · simp [transcribeAudio, transFailRT, hw, hcode]
  · simp [transcribeAudio, transFailRT, hw]

theorem generateSummary_ok (w : World) (j : Job) (t : Trace)
    (h : summResolves w) :
    generateSummary w j t =
      ({ j with steps.summary := .completed,
                results.summary := some (jsTrim w.ollamaStdout) },
       { t with ollamaCalls := t.ollamaCalls + 1,
                written := t.written ++
                  (if w.summaryWriteOk then
                    [summarySavePath w.summaryTimestamp j.metadata] else []) },
       some (jsTrim w.ollamaStdout)) := by
  obtain ⟨hol, hne⟩ := h
  by_cases hsw : w.summaryWriteOk <;> simp [generateSummary, hol, hne, hsw]

theorem generateSummary_fail (w : World) (j : Job) (t : Trace)
    (h : ¬ summResolves w) :
    generateSummary w j t =
      ({ j with steps.summary := .error },
       { t with ollamaCalls := t.ollamaCalls + 1 }, none) := by
  rcases hol : w.ollama with code | msg
  · have hcond : ¬ (code = 0 ∧ jsTrim w.ollamaStdout ≠ "") := by
      rintro ⟨hc0, hne⟩
      exact h ⟨by rw [hol, hc0], hne⟩
    simp [generateSummary, hol, hcond]
  · simp [generateSummary, hol]

theorem process_conv_fail (w : World) (j : Job) (h : ¬ convResolves w) :
    process w j =
      ({ j with status := .error, steps.conversion := .error },
       { Trace.empty with ffmpegCalls := 1 }) := by
  rcases hf : w.ffmpeg with code | msg
  · have hc : ¬ code = 0 := by
      intro hc0
      exact h (show w.ffmpeg = SpawnOutcome.closed 0 by rw [hf, hc0])
    simp [process, convertAudioToWav, Trace.empty, hf, hc]
  · simp [process, convertAudioToWav, Trace.empty, hf]

theorem process_trans_fail (w : World) (j : Job)
    (hc : convResolves w) (ht : ¬ transResolves w) :
    process w j =
      ({ j with status := .error,
                steps := { conversion := .completed, transcription := .error,
                           summary := j.steps.summary,
                           hubspot := j.steps.hubspot },
                results := { wavFile := some (tempWavPath j.processId),
                             transcription := transFailRT w j,
                             summary := j.results.summary } },
       { Trace.empty with ffmpegCalls := 1, whisperCalls := 1 }) := by
  have hf : w.ffmpeg = SpawnOutcome.closed 0 := hc
  rcases hw : w.whisper with code | msg
  · by_cases hcode : code = 0
    · subst hcode
      rcases hr : w.txtRead with _ | content
      · simp [process, convertAudioToWav, transcribeAudio, transFailRT,
          Trace.empty, hf, hw, hr]
      · have hwr : w.transcriptWriteOk = false := by
          cases hb : w.transcriptWriteOk
          · rfl
          · exact absurd ⟨hw, by simp [hr], hb⟩ ht
        simp [process, convertAudioToWav, transcribeAudio, transFailRT,
          Trace.empty, hf, hw, hr, hwr]
    · simp [process, convertAudioToWav, transcribeAudio, transFailRT,
        Trace.empty, hf, hw, hcode]
  · simp [process, convertAudioToWav, transcribeAudio, transFailRT,
      Trace.empty, hf, hw]

theorem process_summ_fail (w : World) (j : Job) (content : String)
    (h1 : w.ffmpeg = SpawnOutcome.closed 0)
    (h2 : w.whisper = SpawnOutcome.closed 0) (h3 : w.txtRead = some content)
    (h4 : w.transcriptWriteOk = true) (hs : ¬ summResolves w) :
    process w j =
      ({ j with status := .error,
                steps := { conversion := .completed,
                           transcription := .completed,
                           summary := .error, hubspot := j.steps.hubspot },
                results := { wavFile := some (tempWavPath j.processId),
                             transcription := some (jsTrim content),
                             summary := j.results.summary } },
       { Trace.empty with
           ffmpegCalls := 1
           whisperCalls := 1
           ollamaCalls := 1
           written := [transcriptSavePath w.transcriptTimestamp j.metadata]
           unlinked := [(tempWavPath j.processId ++ ".txt", w.unlinkOk)] }) := by
  rcases hol : w.ollama with code | msg
  · have hcond : ¬ (code = 0 ∧ jsTrim w.ollamaStdout ≠ "") := by
      rintro ⟨hc0, hne⟩
      exact hs ⟨by rw [hol, hc0], hne⟩
    simp [process, convertAudioToWav, transcribeAudio, generateSummary,
      Trace.empty, h1, h2, h3, h4, hol, hcond]
  · simp [process, convertAudioToWav, transcribeAudio, generateSummary,
      Trace.empty, h1, h2, h3, h4, hol]

theorem process_ok (w : World) (j : Job) (content : String)
    (h1 : w.ffmpeg = SpawnOutcome.closed 0)
    (h2 : w.whisper = SpawnOutcome.closed 0) (h3 : w.txtRead = some content)
    (h4 : w.transcriptWriteOk = true) (h5 : summResolves w) :
    process w j =
      ({ j with status := .completed,
                steps := { conversion := .completed,
                           transcription := .completed,
                           summary := .completed,
                           hubspot := if j.metadata.attachToHubspot then
                             StepStatus.completed else j.steps.hubspot },
                results := { wavFile := some (tempWavPath j.processId),
                             transcription := some (jsTrim content),
                             summary := some (jsTrim w.ollamaStdout) } },
       { ffmpegCalls := 1, whisperCalls := 1, ollamaCalls := 1,
         hubspotCalls := if j.metadata.attachToHubspot then 1 else 0,
         written := [transcriptSavePath w.transcriptTimestamp j.metadata] ++
           (if w.summaryWriteOk then
             [summarySavePath w.summaryTimestamp j.metadata] else []),
         unlinked := [(tempWavPath j.processId ++ ".txt", w.unlinkOk),
                      (tempWavPath j.processId, w.unlinkOk)] }) := by
  obtain ⟨hol, hne⟩ := h5
  by_cases hm : j.metadata.attachToHubspot <;>
    by_cases hsw : w.summaryWriteOk <;>
      simp [process, convertAudioToWav, transcribeAudio, generateSummary,
        attachToHubspot, cleanup, Trace.empty, h1, h2, h3, h4, hol, hne,
        hm, hsw]

/-- The job component of a run does not depend on the outcome of any unlink
attempt: the catch handlers around fs.unlink swallow the failure and nothing
of the job state is derived from it. -/
theorem process_fst_ignores_unlinkOk (w : World) (b : Bool) (j : Job) :
    (process { w with unlinkOk := b } j).1 = (process w j).1 := by
  by_cases hc : convResolves w
  · by_cases ht : transResolves w
    · obtain ⟨h2, h3, h4⟩ := ht
      obtain ⟨content, hr⟩ : ∃ c, w.txtRead = some c :=
        Option.ne_none_iff_exists'.mp h3
      by_cases hs : summResolves w
      · rw [process_ok { w with unlinkOk := b } j content hc h2 hr h4 hs,
          process_ok w j content hc h2 hr h4 hs]
      · rw [process_summ_fail { w with unlinkOk := b } j content hc h2 hr h4 hs,
          process_summ_fail w j content hc h2 hr h4 hs]
    · rw [process_trans_fail { w with unlinkOk := b } j hc ht,
        process_trans_fail w j hc ht]
      rfl
  · rw [process_conv_fail { w with unlinkOk := b } j hc,
      process_conv_fail w j hc]

/-- Strings built from different literal head characters are distinct. -/
theorem summarySavePath_ne_transcriptSavePath (ts1 ts2 : String)
    (md1 md2 : Metadata) :
    summarySavePath ts1 md1 ≠ transcriptSavePath ts2 md2 := by
  intro h
  have hd := congrArg String.data h
  rw [summarySavePath, transcriptSavePath, String.data_append,
    String.data_append] at hd
  have h1 : "summaries/".data = 's' :: "ummaries/".data := rfl
  have h2 : "transcripts/".data = 't' :: "ranscripts/".data := rfl
  rw [h1, h2, List.cons_append, List.cons_append] at hd
  injection hd with hch _
  exact absurd hch (by decide)

/-- The transient converted-audio path is injective in the job id. -/
theorem tempWavPath_inj (id1 id2 : String)
    (h : tempWavPath id1 = tempWavPath id2) : id1 = id2 := by
  have hd := congrArg String.data h
  rw [tempWavPath, tempWavPath, String.data_append, String.data_append,
    String.data_append, String.data_append] at hd
  have h1 := List.append_cancel_left (List.append_cancel_right hd)
  cases id1
  cases id2
  exact congrArg String.mk h1

/-- After a put, a previously resolvable id still resolves. -/
theorem registry_get_put_isSome (r : Registry) (i id : String) (j : Job)
    (h : (Registry.get r id).isSome = true) :
    (Registry.get (Registry.put r i j) id).isSome = true := by
  unfold Registry.get Registry.put at *
  cases hid : (id == i)
  · simpa [List.lookup, hid] using h
  · simp [List.lookup, hid]

/-- A string never equals itself with a txt suffix appended. -/
theorem ne_append_txt (s : String) : s ≠ s ++ ".txt" := by
  intro h
  have hl := congrArg String.length h
  rw [String.length_append] at hl
  have h4 : ".txt".length = 4 := rfl
  rw [h4] at hl
  omega

/-- Transcript save paths agree only when the timestamps agree, provided the
timestamps have equal length (the source timestamp format is fixed-width). -/
theorem transcriptSavePath_ts_inj (ts1 ts2 : String) (md1 md2 : Metadata)
    (hlen : ts1.length = ts2.length)
    (h : transcriptSavePath ts1 md1 = transcriptSavePath ts2 md2) :
    ts1 = ts2 := by
  have hd := congrArg String.data h
  simp only [transcriptSavePath, transcriptFileName, String.data_append,
    List.append_assoc] at hd
  have h1 := List.append_cancel_left (List.append_cancel_left hd)
  have h2 := (List.append_inj h1 hlen).1
  cases ts1
  cases ts2
  exact congrArg String.mk h2

/-- Claim C1: for every job whose conversion stage fails (non-zero ffmpeg exit
or launch error), the pipeline halts: the overall status becomes error, the
transcription and summary stages remain pending, and the transcription and
summarization adapters are never invoked (zero calls in the trace). -/
theorem c1_conversion_failure_halts (w : World) (pid file : String)
    (md : Metadata) (h : ¬ convResolves w) :
    (process w (mkJob pid file md)).1.status = .error ∧
    (process w (mkJob pid file md)).1.steps.transcription = .pending ∧
    (process w (mkJob pid file md)).1.steps.summary = .pending ∧
    (process w (mkJob pid file md)).2.whisperCalls = 0 ∧
    (process w (mkJob pid file md)).2.ollamaCalls = 0 := by
  rw [process_conv_fail w _ h]
  simp [mkJob, Trace.empty]

/-- Witness for C1 at a concrete failing-conversion world. -/
theorem c1_witness :
    ¬ convResolves wConvFail ∧
    ((process wConvFail (mkJob "j1" "a.m4a" mdAcme)).1.status = .error ∧
     (process wConvFail (mkJob "j1" "a.m4a" mdAcme)).1.steps.transcription = .pending ∧
     (process wConvFail (mkJob "j1" "a.m4a" mdAcme)).1.steps.summary = .pending ∧
     (process wConvFail (mkJob "j1" "a.m4a" mdAcme)).2.whisperCalls = 0 ∧
     (process wConvFail (mkJob "j1" "a.m4a" mdAcme)).2.ollamaCalls = 0) :=
  ⟨by decide, c1_conversion_failure_halts wConvFail "j1" "a.m4a" mdAcme (by decide)⟩

/-- Counterexample to C2 as stated: a run of jobAcme in wEmptyTranscript has
all three adapters resolving, yet the recorded transcription text is the
empty string and no durable summary artifact was written (its write failed
and was swallowed), so `transcription non-empty` and `one durable summary
artifact exists` are both false even though the status is completed. -/
theorem c2_counterexample :
    convResolves wEmptyTranscript ∧ transResolves wEmptyTranscript ∧
    summResolves wEmptyTranscript ∧
    (process wEmptyTranscript jobAcme).1.status = .completed ∧
    (process wEmptyTranscript jobAcme).1.results.transcription = some "" ∧
    summarySavePath wEmptyTranscript.summaryTimestamp mdAcme ∉
      (process wEmptyTranscript jobAcme).2.written := by
  decide

/-- Claim C2 (amended): when all three adapter operations resolve, the overall
status is completed, the summary text is non-empty, the transcription text is
the trimmed transcript-artifact content (possibly empty), the durable
transcript artifact is written, the durable summary artifact is written
exactly when its write succeeds, and both artifact filenames embed the
sanitized client/case identifiers when those were supplied. -/
theorem c2_success_outcome (w : World) (pid file : String) (md : Metadata)
    (hc : convResolves w) (ht : transResolves w) (hs : summResolves w) :
    (process w (mkJob pid file md)).1.status = .completed ∧
    (process w (mkJob pid file md)).1.results.summary =
      some (jsTrim w.ollamaStdout) ∧
    jsTrim w.ollamaStdout ≠ "" ∧
    (∃ c, w.txtRead = some c ∧
      (process w (mkJob pid file md)).1.results.transcription =
        some (jsTrim c)) ∧
    (w.summaryWriteOk = true →
      (process w (mkJob pid file md)).2.written =
        [transcriptSavePath w.transcriptTimestamp md,
         summarySavePath w.summaryTimestamp md]) ∧
    (w.summaryWriteOk = false →
      (process w (mkJob pid file md)).2.written =
        [transcriptSavePath w.transcriptTimestamp md]) ∧
    (∀ name, md.clientName = some name → name ≠ "" →
      (∃ pre post, transcriptFileName w.transcriptTimestamp md =
        pre ++ sanitizeId name ++ post) ∧
      (∃ pre post, summaryFileName w.summaryTimestamp md =
        pre ++ sanitizeId name ++ post)) ∧
    (∀ name, md.caseNumber = some name → name ≠ "" →
      (∃ pre post, transcriptFileName w.transcriptTimestamp md =
        pre ++ sanitizeId name ++ post) ∧
      (∃ pre post, summaryFileName w.summaryTimestamp md =
        pre ++ sanitizeId name ++ post)) := by
  obtain ⟨h2, h3, h4⟩ := ht
  obtain ⟨content, hr⟩ : ∃ c, w.txtRead = some c :=
    Option.ne_none_iff_exists'.mp h3
  rw [process_ok w _ content hc h2 hr h4 hs]
  obtain ⟨hol, hne⟩ := hs
  refine ⟨rfl, by simp [mkJob], hne, ⟨content, hr, by simp [mkJob]⟩,
    ?_, ?_, ?_, ?_⟩
  · intro hsw
    simp [mkJob, hsw]
  · intro hsw
    simp [mkJob, hsw]
  · intro name hname hnonempty
    constructor
    · exact ⟨"transcript_" ++ w.transcriptTimestamp ++ "_",
        infoTag md.caseNumber ++ ".txt",
        by simp [transcriptFileName, infoTag, hname, hnonempty,
          String.append_assoc]⟩
    · exact ⟨"summary_" ++ w.summaryTimestamp ++ "_",
        infoTag md.caseNumber ++ ".txt",
        by simp [summaryFileName, infoTag, hname, hnonempty,
          String.append_assoc]⟩
  · intro name hname hnonempty
    constructor
    · exact ⟨"transcript_" ++ w.transcriptTimestamp ++
        infoTag md.clientName ++ "_", ".txt",
        by simp [transcriptFileName, infoTag, hname, hnonempty,
          String.append_assoc]⟩
    · exact ⟨"summary_" ++ w.summaryTimestamp ++
        infoTag md.clientName ++ "_", ".txt",
        by simp [summaryFileName, infoTag, hname, hnonempty,
          String.append_assoc]⟩

/-- Witness for the amended C2 at the all-success world with identifiers
supplied. -/
theorem c2_witness :
    (process wAllGood (mkJob "j2w" "b.m4a" mdAcme)).1.status = .completed ∧
    (process wAllGood (mkJob "j2w" "b.m4a" mdAcme)).1.results.summary =
      some (jsTrim wAllGood.ollamaStdout) ∧
    jsTrim wAllGood.ollamaStdout ≠ "" ∧
    (∃ c, wAllGood.txtRead = some c ∧
      (process wAllGood (mkJob "j2w" "b.m4a" mdAcme)).1.results.transcription =
        some (jsTrim c)) ∧
    (wAllGood.summaryWriteOk = true →
      (process wAllGood (mkJob "j2w" "b.m4a" mdAcme)).2.written =
        [transcriptSavePath wAllGood.transcriptTimestamp mdAcme,
         summarySavePath wAllGood.summaryTimestamp mdAcme]) ∧
    (wAllGood.summaryWriteOk = false →
      (process wAllGood (mkJob "j2w" "b.m4a" mdAcme)).2.written =
        [transcriptSavePath wAllGood.transcriptTimestamp mdAcme]) ∧
    (∀ name, mdAcme.clientName = some name → name ≠ "" →
      (∃ pre post, transcriptFileName wAllGood.transcriptTimestamp mdAcme =
        pre ++ sanitizeId name ++ post) ∧
      (∃ pre post, summaryFileName wAllGood.summaryTimestamp mdAcme =
        pre ++ sanitizeId name ++ post)) ∧
    (∀ name, mdAcme.caseNumber = some name → name ≠ "" →
      (∃ pre post, transcriptFileName wAllGood.transcriptTimestamp mdAcme =
        pre ++ sanitizeId name ++ post) ∧
      (∃ pre post, summaryFileName wAllGood.summaryTimestamp mdAcme =
        pre ++ sanitizeId name ++ post)) :=
  c2_success_outcome wAllGood "j2w" "b.m4a" mdAcme (by decide)
    ⟨by decide, by decide, by decide⟩ ⟨by decide, by decide⟩

/-- Counterexample to C3 as stated: a run that fails at transcription ends in
error with the transient wav path recorded, yet no deletion of anything is
ever attempted (the unlink trace is empty), because process() only calls
cleanup() on the success path. -/
theorem c3_counterexample :
    (process wWhisperFail jobAcme2).1.status = .error ∧
    (process wWhisperFail jobAcme2).1.results.wavFile =
      some (tempWavPath "job-2") ∧
    (process wWhisperFail jobAcme2).2.unlinked = [] := by
  decide

/-- Claim C3 (amended): cleanup of the transient converted-audio file is
attempted exactly on runs that end completed; on runs that end in error no
deletion of the transient file is attempted; and the unlink outcome never
changes the final job record (cleanup failures are swallowed). -/
theorem c3_cleanup_only_on_completed (w : World) (pid file : String)
    (md : Metadata) :
    ((process w (mkJob pid file md)).1.status = .completed →
      (tempWavPath pid, w.unlinkOk) ∈ (process w (mkJob pid file md)).2.unlinked) ∧
    ((process w (mkJob pid file md)).1.status = .error →
      ∀ ok, (tempWavPath pid, ok) ∉ (process w (mkJob pid file md)).2.unlinked) ∧
    (∀ b, (process { w with unlinkOk := b } (mkJob pid file md)).1 =
      (process w (mkJob pid file md)).1) := by
  refine ⟨?_, ?_, fun b => process_fst_ignores_unlinkOk w b (mkJob pid file md)⟩
  · by_cases hc : convResolves w
    · by_cases ht : transResolves w
      · obtain ⟨h2, h3, h4⟩ := ht
        obtain ⟨content, hr⟩ : ∃ c, w.txtRead = some c :=
          Option.ne_none_iff_exists'.mp h3
        by_cases hs : summResolves w
        · rw [process_ok w _ content hc h2 hr h4 hs]
          simp [mkJob]
        · rw [process_summ_fail w _ content hc h2 hr h4 hs]
          simp
      · rw [process_trans_fail w _ hc ht]
        simp
    · rw [process_conv_fail w _ hc]
      simp
  · by_cases hc : convResolves w
    · by_cases ht : transResolves w
      · obtain ⟨h2, h3, h4⟩ := ht
        obtain ⟨content, hr⟩ : ∃ c, w.txtRead = some c :=
          Option.ne_none_iff_exists'.mp h3
        by_cases hs : summResolves w
        · rw [process_ok w _ content hc h2 hr h4 hs]
          simp [mkJob]
        · rw [process_summ_fail w _ content hc h2 hr h4 hs]
          intro _ ok
          simp [mkJob, Trace.empty, Prod.ext_iff]
          intro hbad
          exact absurd hbad (ne_append_txt (tempWavPath pid))
      · rw [process_trans_fail w _ hc ht]
        simp [Trace.empty]
    · rw [process_conv_fail w _ hc]
      simp [Trace.empty]

/-- Witness for the amended C3 at the all-success world. -/
theorem c3_witness :
    (process wAllGood (mkJob "j3w" "c.m4a" mdAcme)).1.status = .completed ∧
    (tempWavPath "j3w", wAllGood.unlinkOk) ∈
      (process wAllGood (mkJob "j3w" "c.m4a" mdAcme)).2.unlinked :=
  ⟨by decide,
    (c3_cleanup_only_on_completed wAllGood "j3w" "c.m4a" mdAcme).1 (by decide)⟩

/-- Counterexample to C4 as stated: a submission whose body requests the
attach step still ends with the attach (hubspot) stage pending and zero
attach-adapter invocations after the pipeline reaches completed, because the
submission handler builds metadata without any attach flag. -/
theorem c4_counterexample :
    bodyAttach.attachToHubspot = true ∧
    (process wAllGood (submitJob "job-4" "uploads/c4.m4a" bodyAttach)).1.status
      = .completed ∧
    (process wAllGood (submitJob "job-4" "uploads/c4.m4a" bodyAttach)).1.steps.hubspot
      = .pending ∧
    (process wAllGood (submitJob "job-4" "uploads/c4.m4a" bodyAttach)).2.hubspotCalls
      = 0 := by
  decide

/-- Claim C4 (amended): for every submission, with or without an attach
request in the body, the attach stage stays pending after the pipeline and
the attach adapter is never invoked by the pipeline: the handler drops the
attach request when building metadata, so attach transitions only via the
post-hoc boundary. -/
theorem c4_attach_stays_pending (pid file : String) (body : RequestBody)
    (w : World) :
    (process w (submitJob pid file body)).1.steps.hubspot = .pending ∧
    (process w (submitJob pid file body)).2.hubspotCalls = 0 := by
  by_cases hc : convResolves w
  · by_cases ht : transResolves w
    · obtain ⟨h2, h3, h4⟩ := ht
      obtain ⟨content, hr⟩ : ∃ c, w.txtRead = some c :=
        Option.ne_none_iff_exists'.mp h3
      by_cases hs : summResolves w
      · rw [process_ok w _ content hc h2 hr h4 hs]
        simp [submitJob, mkJob, buildMetadata]
      · rw [process_summ_fail w _ content hc h2 hr h4 hs]
        simp [submitJob, mkJob, Trace.empty]
    · rw [process_trans_fail w _ hc ht]
      simp [submitJob, mkJob, Trace.empty]
  · rw [process_conv_fail w _ hc]
    simp [submitJob, mkJob, Trace.empty]

/-- Claim C5: the post-hoc attach boundary on a job that is not completed
answers precondition-failed without invoking the attach adapter or changing
the registry (hence the attach stage is unchanged); on a completed job it
invokes the adapter once and the stored job has the attach stage completed. -/
theorem c5_posthoc_attach (r : Registry) (id : String) (job : Job)
    (h : Registry.get r id = some job) :
    (job.status ≠ .completed →
      hubspotAttachEndpoint r id = (r, .notCompleted, 0)) ∧
    (job.status = .completed →
      (hubspotAttachEndpoint r id).2.1 = .attached ∧
      (hubspotAttachEndpoint r id).2.2 = 1 ∧
      Registry.get (hubspotAttachEndpoint r id).1 id =
        some { job with steps.hubspot := .completed }) := by
  constructor
  · intro hne
    simp [hubspotAttachEndpoint, h, hne]
  · intro hdone
    have h' : List.lookup id r = some job := h
    simp [hubspotAttachEndpoint, Registry.get, Registry.put, List.lookup, h',
      hdone]

/-- Witness for C5 at a registry holding one completed job. -/
theorem c5_witness :
    Registry.get regDone "job-5" = some jobDone ∧
    (jobDone.status = .completed →
      (hubspotAttachEndpoint regDone "job-5").2.1 = .attached ∧
      (hubspotAttachEndpoint regDone "job-5").2.2 = 1 ∧
      Registry.get (hubspotAttachEndpoint regDone "job-5").1 "job-5" =
        some { jobDone with steps.hubspot := .completed }) :=
  ⟨by decide, (c5_posthoc_attach regDone "job-5" jobDone (by decide)).2⟩

/-- Claim C6: in a run that reaches the summary stage, that stage ends
completed exactly when the summarization tool exits zero with non-empty
trimmed output; otherwise the stage ends error and the job halts with overall
status error. -/
theorem c6_summary_stage_iff (w : World) (pid file : String) (md : Metadata)
    (hc : convResolves w) (ht : transResolves w) :
    ((process w (mkJob pid file md)).1.steps.summary = .completed ↔
      summResolves w) ∧
    (¬ summResolves w →
      (process w (mkJob pid file md)).1.steps.summary = .error ∧
      (process w (mkJob pid file md)).1.status = .error) := by
  obtain ⟨h2, h3, h4⟩ := ht
  obtain ⟨content, hr⟩ : ∃ c, w.txtRead = some c :=
    Option.ne_none_iff_exists'.mp h3
  by_cases hs : summResolves w
  · rw [process_ok w _ content hc h2 hr h4 hs]
    exact ⟨⟨fun _ => hs, fun _ => rfl⟩, fun hns => absurd hs hns⟩
  · rw [process_summ_fail w _ content hc h2 hr h4 hs]
    simp [hs]

/-- Witness for C6 at a world whose summarizer exits zero with empty
output. -/
theorem c6_witness :
    convResolves wEmptySummary ∧ transResolves wEmptySummary ∧
    (((process wEmptySummary (mkJob "j6" "d.m4a" mdAcme)).1.steps.summary
        = .completed ↔ summResolves wEmptySummary) ∧
     (¬ summResolves wEmptySummary →
       (process wEmptySummary (mkJob "j6" "d.m4a" mdAcme)).1.steps.summary
         = .error ∧
       (process wEmptySummary (mkJob "j6" "d.m4a" mdAcme)).1.status
         = .error)) :=
  ⟨by decide, ⟨by decide, by decide, by decide⟩,
    c6_summary_stage_iff wEmptySummary "j6" "d.m4a" mdAcme (by decide)
      ⟨by decide, by decide, by decide⟩⟩

/-- Claim C7: when the pipeline invokes the attach stage (attach requested in
metadata and the three adapters resolve), the job still ends completed with
the attach stage completed; the attach adapter in the source is a placeholder
that always succeeds once invoked, so no pipeline-invoked attach ever reverts
or prevents completion. -/
theorem c7_attach_requested_completes (w : World) (pid file : String)
    (md : Metadata) (hm : md.attachToHubspot = true)
    (hc : convResolves w) (ht : transResolves w) (hs : summResolves w) :
    (process w (mkJob pid file md)).1.status = .completed ∧
    (process w (mkJob pid file md)).1.steps.hubspot = .completed ∧
    (process w (mkJob pid file md)).2.hubspotCalls = 1 := by
  obtain ⟨h2, h3, h4⟩ := ht
  obtain ⟨content, hr⟩ : ∃ c, w.txtRead = some c :=
    Option.ne_none_iff_exists'.mp h3
  rw [process_ok w _ content hc h2 hr h4 hs]
  simp [mkJob, hm]

/-- Witness for C7 with the attach flag set in the job metadata. -/
theorem c7_witness :
    mdAcmeAttach.attachToHubspot = true ∧
    ((process wAllGood (mkJob "j7" "e.m4a" mdAcmeAttach)).1.status
       = .completed ∧
     (process wAllGood (mkJob "j7" "e.m4a" mdAcmeAttach)).1.steps.hubspot
       = .completed ∧
     (process wAllGood (mkJob "j7" "e.m4a" mdAcmeAttach)).2.hubspotCalls = 1) :=
  ⟨by decide,
    c7_attach_requested_completes wAllGood "j7" "e.m4a" mdAcmeAttach
      (by decide) (by decide) ⟨by decide, by decide, by decide⟩ (by decide)⟩

/-- Summary save paths agree only when the timestamps agree, provided the
timestamps have equal length. -/
theorem summarySavePath_ts_inj (ts1 ts2 : String) (md1 md2 : Metadata)
    (hlen : ts1.length = ts2.length)
    (h : summarySavePath ts1 md1 = summarySavePath ts2 md2) :
    ts1 = ts2 := by
  have hd := congrArg String.data h
  simp only [summarySavePath, summaryFileName, String.data_append,
    List.append_assoc] at hd
  have h1 := List.append_cancel_left (List.append_cancel_left hd)
  have h2 := (List.append_inj h1 hlen).1
  cases ts1
  cases ts2
  exact congrArg String.mk h2

/-- Claim C8: the registry supports only put and get operations (the source
never deletes from processingJobs), and under any sequence of such operations
an id that resolves keeps resolving: job records are never evicted. -/
theorem c8_registry_no_eviction (r : Registry) (ops : List RegistryOp)
    (id : String) (h : (Registry.get r id).isSome = true) :
    (Registry.get (applyOps r ops) id).isSome = true := by
  induction ops generalizing r with
  | nil => exact h
  | cons op rest ih =>
    cases op with
    | put i jb => exact ih _ (registry_get_put_isSome r i id jb h)
    | get i => exact ih _ h

/-- Witness for C8 on a concrete registry and op sequence. -/
theorem c8_witness :
    (Registry.get regA "a").isSome = true ∧
    (Registry.get (applyOps regA opsSample) "a").isSome = true :=
  ⟨by decide, c8_registry_no_eviction regA opsSample "a" (by decide)⟩

/-- Counterexample to C9 as stated: two distinct concurrent jobs with the same
client/case metadata whose transcripts are saved in the same second write the
very same transcript artifact path — the job id is not part of the
transcript/summary filenames. -/
theorem c9_counterexample :
    jobAcme.processId ≠ jobAcme2.processId ∧
    transcriptSavePath wAllGood.transcriptTimestamp jobAcme.metadata ∈
      (process wAllGood jobAcme).2.written ∧
    transcriptSavePath wAllGood.transcriptTimestamp jobAcme2.metadata ∈
      (process wAllGood jobAcme2).2.written ∧
    transcriptSavePath wAllGood.transcriptTimestamp jobAcme.metadata =
      transcriptSavePath wAllGood.transcriptTimestamp jobAcme2.metadata := by
  decide

/-- Claim C9 (amended): the transient converted-audio path is unique per job
id; the transcript and summary artifact paths are unique only per save
timestamp (for the fixed-width timestamp format): they differ whenever the
timestamps differ, but jobs sharing a timestamp and sanitized identifiers
collide. -/
theorem c9_artifact_path_uniqueness (id1 id2 ts1 ts2 : String)
    (md1 md2 : Metadata) (hid : id1 ≠ id2) (hlen : ts1.length = ts2.length)
    (hts : ts1 ≠ ts2) :
    tempWavPath id1 ≠ tempWavPath id2 ∧
    transcriptSavePath ts1 md1 ≠ transcriptSavePath ts2 md2 ∧
    summarySavePath ts1 md1 ≠ summarySavePath ts2 md2 := by
  refine ⟨fun h => hid (tempWavPath_inj id1 id2 h),
    fun h => hts (transcriptSavePath_ts_inj ts1 ts2 md1 md2 hlen h),
    fun h => hts (summarySavePath_ts_inj ts1 ts2 md1 md2 hlen h)⟩

/-- Witness for the amended C9 at concrete ids and timestamps. -/
theorem c9_witness :
    ("job-1" : String) ≠ "job-2" ∧
    ("2026-10-12T10-00-00" : String).length = ("2026-10-12T10-00-01" : String).length ∧
    ("2026-10-12T10-00-00" : String) ≠ "2026-10-12T10-00-01" ∧
    (tempWavPath "job-1" ≠ tempWavPath "job-2" ∧
     transcriptSavePath "2026-10-12T10-00-00" mdAcme ≠
       transcriptSavePath "2026-10-12T10-00-01" mdAcme ∧
     summarySavePath "2026-10-12T10-00-00" mdAcme ≠
       summarySavePath "2026-10-12T10-00-01" mdAcme) :=
  ⟨by decide, by decide, by decide,
    c9_artifact_path_uniqueness "job-1" "job-2" "2026-10-12T10-00-00"
      "2026-10-12T10-00-01" mdAcme mdAcme (by decide) (by decide) (by decide)⟩

/-- Claim C10: when the summarization tool succeeds but the durable summary
write fails, the failure is swallowed: the summary stage is still completed,
the summary text is still recorded, the job still ends completed, and no
durable summary artifact is in the written trace. -/
theorem c10_summary_write_failure_swallowed (w : World) (pid file : String)
    (md : Metadata) (hc : convResolves w) (ht : transResolves w)
    (hs : summResolves w) (hw : w.summaryWriteOk = false) :
    (process w (mkJob pid file md)).1.steps.summary = .completed ∧
    (process w (mkJob pid file md)).1.results.summary =
      some (jsTrim w.ollamaStdout) ∧
    (process w (mkJob pid file md)).1.status = .completed ∧
    summarySavePath w.summaryTimestamp md ∉
      (process w (mkJob pid file md)).2.written := by
  obtain ⟨h2, h3, h4⟩ := ht
  obtain ⟨content, hr⟩ : ∃ c, w.txtRead = some c :=
    Option.ne_none_iff_exists'.mp h3
  rw [process_ok w _ content hc h2 hr h4 hs]
  refine ⟨rfl, by simp [mkJob], rfl, ?_⟩
  simp [mkJob, hw]
  exact summarySavePath_ne_transcriptSavePath w.summaryTimestamp
    w.transcriptTimestamp md md

/-- Witness for C10 at a world whose summary write fails. -/
theorem c10_witness :
    ((process wSummarySaveFail (mkJob "j10" "f.m4a" mdAcme)).1.steps.summary
       = .completed ∧
     (process wSummarySaveFail (mkJob "j10" "f.m4a" mdAcme)).1.results.summary
       = some (jsTrim wSummarySaveFail.ollamaStdout) ∧
     (process wSummarySaveFail (mkJob "j10" "f.m4a" mdAcme)).1.status
       = .completed ∧
     summarySavePath wSummarySaveFail.summaryTimestamp mdAcme ∉
       (process wSummarySaveFail (mkJob "j10" "f.m4a" mdAcme)).2.written) :=
  c10_summary_write_failure_swallowed wSummarySaveFail "j10" "f.m4a" mdAcme
    (by decide) ⟨by decide, by decide, by decide⟩ ⟨by decide, by decide⟩
    (by decide)

end LocalTranscript
